import Mathlib

/-!
Shallow embedding of the 401(k) contribution calculator's financial engine
(`TaxCalculator` and `FinancialCalculator`), translated from the repository
source.  Currency amounts, percentages and rates are modelled as exact
rationals; JavaScript's `Infinity` upper bound of the last tax bracket is
modelled as an `Option` upper bound, and the unguarded JavaScript divisions
(which produce `NaN`/`Infinity` on a zero denominator) are modelled with an
`Option`-valued division `jsDiv`.
-/

/-- Tax bracket: lower bound, optional upper bound (`none` plays the role of
`Infinity` in the source table), and marginal rate. -/
structure TaxBracket where
  lo : ℚ
  hi : Option ℚ
  rate : ℚ

/-- Value of `Math.min(income, bracket.max)` from the source, where
`bracket.max` may be `Infinity` (modelled by `none`). -/
def bracketCap (income : ℚ) : Option ℚ → ℚ
  | some h => min income h
  | none => income

/-- Tax accrued in one bracket: the body of the loop in
`TaxCalculator.calculateTax`. -/
def bracketTax (income : ℚ) (b : TaxBracket) : ℚ :=
  if b.lo < income then (bracketCap income b.hi - b.lo) * b.rate else 0

/-- `TaxCalculator.calculateTax(income, brackets)`: the running `tax`
accumulator over the bracket list. -/
def calculateTax (income : ℚ) (brackets : List TaxBracket) : ℚ :=
  brackets.foldl (fun tax b => tax + bracketTax income b) 0

/-- `TAX_BRACKETS.federal.single` (2024). -/
def federalBrackets : List TaxBracket :=
  [⟨0, some 11000, 0.10⟩,
   ⟨11000, some 44725, 0.12⟩,
   ⟨44725, some 95375, 0.22⟩,
   ⟨95375, some 182050, 0.24⟩,
   ⟨182050, some 231250, 0.32⟩,
   ⟨231250, some 578125, 0.35⟩,
   ⟨578125, none, 0.37⟩]

/-- `TAX_BRACKETS.california.single` (2024). -/
def californiaBrackets : List TaxBracket :=
  [⟨0, some 10099, 0.01⟩,
   ⟨10099, some 23942, 0.02⟩,
   ⟨23942, some 37788, 0.04⟩,
   ⟨37788, some 52455, 0.06⟩,
   ⟨52455, some 66295, 0.08⟩,
   ⟨66295, some 338639, 0.093⟩,
   ⟨338639, some 406364, 0.103⟩,
   ⟨406364, some 677275, 0.113⟩,
   ⟨677275, none, 0.123⟩]

/-- `SOCIAL_SECURITY_WAGE_BASE` (2024). -/
def SOCIAL_SECURITY_WAGE_BASE : ℚ := 160200

/-- `EMPLOYEE_401K_LIMIT` (2024). -/
def EMPLOYEE_401K_LIMIT : ℚ := 23000

/-- `TaxCalculator.calculateFederalTax`. -/
def calculateFederalTax (income : ℚ) : ℚ :=
  calculateTax income federalBrackets

/-- `TaxCalculator.calculateStateTax`. -/
def calculateStateTax (income : ℚ) : ℚ :=
  calculateTax income californiaBrackets

/-- `TaxCalculator.calculateFICATax`. -/
def calculateFICATax (income : ℚ) : ℚ :=
  min income SOCIAL_SECURITY_WAGE_BASE * 0.062 + income * 0.0145

/-- Result object of `TaxCalculator.calculateTotalTaxes`. -/
structure TaxBreakdown where
  federal : ℚ
  state : ℚ
  fica : ℚ
  total : ℚ

/-- `TaxCalculator.calculateTotalTaxes`. -/
def calculateTotalTaxes (income : ℚ) : TaxBreakdown :=
  { federal := calculateFederalTax income
    state := calculateStateTax income
    fica := calculateFICATax income
    total := calculateFederalTax income + calculateStateTax income + calculateFICATax income }

/-- Division as JavaScript computes it, keeping track of finiteness: a zero
denominator yields `NaN` or `Infinity` in the source, modelled as `none`. -/
def jsDiv (a b : ℚ) : Option ℚ :=
  if b = 0 then none else some (a / b)

/-- `FinancialCalculator.calculateFutureValue`: ordinary-annuity future value
of monthly contributions over `years * 12` months. -/
def calculateFutureValue (annualContribution annualReturn : ℚ) (years : ℕ) : ℚ :=
  let monthlyContribution := annualContribution / 12
  let monthlyReturn := annualReturn / 100 / 12
  let totalMonths := years * 12
  if monthlyReturn = 0 then
    monthlyContribution * totalMonths
  else
    monthlyContribution * (((1 + monthlyReturn) ^ totalMonths - 1) / monthlyReturn)

/-- Result object of `FinancialCalculator.calculate401KScenario`. -/
structure ScenarioResult where
  contribution : ℚ
  employerContribution : ℚ
  total401KContribution : ℚ
  trad401kContribution : ℚ
  roth401kContribution : ℚ
  rothIRAContribution : ℚ
  additionalBrokerage : ℚ
  totalFutureValue : ℚ
  taxableIncome : ℚ
  taxes : TaxBreakdown
  takeHomePay : ℚ
  futureValueTrad401k : ℚ
  futureValueRoth401k : ℚ
  futureValueEmployerMatch : ℚ
  futureValueRothIRA : ℚ
  futureValueAdditionalBrokerage : ℚ
  grossSalary : ℚ

/-- `FinancialCalculator.calculate401KScenario`.  The JavaScript default
arguments `targetTakeHome = null`, `roth401kMax = 0`, `rothIRA = 0` are passed
explicitly here (`targetTakeHome : Option ℚ`, where the truthiness test
`targetTakeHome && ...` treats both `null` and `0` as no target); the unused
`accountType` parameter is omitted. -/
def calculate401KScenario (grossSalary contributionPercent employerMatch investmentReturn : ℚ)
    (years : ℕ) (targetTakeHome : Option ℚ) (roth401kMax rothIRA : ℚ) : ScenarioResult :=
  let totalContributionAmount := min (grossSalary * (contributionPercent / 100)) EMPLOYEE_401K_LIMIT
  let employerContribution := min (grossSalary * (employerMatch / 100)) totalContributionAmount
  let roth401kContribution := min totalContributionAmount roth401kMax
  let trad401kContribution := totalContributionAmount - roth401kContribution
  let rothIRAContribution := min rothIRA 7000
  let taxableIncome := grossSalary - trad401kContribution
  let taxes := calculateTotalTaxes taxableIncome
  let takeHomePay := taxableIncome - taxes.total - roth401kContribution - rothIRAContribution
  let futureValueTrad401k := calculateFutureValue trad401kContribution investmentReturn years
  let futureValueRoth401k := calculateFutureValue roth401kContribution investmentReturn years
  let futureValueEmployer := calculateFutureValue employerContribution investmentReturn years
  let futureValueRothIRA := calculateFutureValue rothIRAContribution investmentReturn years
  let additionalBrokerage :=
    match targetTakeHome with
    | none => 0
    | some t => if t ≠ 0 ∧ takeHomePay > t then takeHomePay - t else 0
  let futureValueAdditionalBrokerage := calculateFutureValue additionalBrokerage investmentReturn years
  { contribution := totalContributionAmount
    employerContribution := employerContribution
    total401KContribution := totalContributionAmount + employerContribution
    trad401kContribution := trad401kContribution
    roth401kContribution := roth401kContribution
    rothIRAContribution := rothIRAContribution
    additionalBrokerage := additionalBrokerage
    totalFutureValue := futureValueTrad401k + futureValueRoth401k + futureValueEmployer +
      futureValueRothIRA + futureValueAdditionalBrokerage
    taxableIncome := taxableIncome
    taxes := taxes
    takeHomePay := takeHomePay
    futureValueTrad401k := futureValueTrad401k
    futureValueRoth401k := futureValueRoth401k
    futureValueEmployerMatch := futureValueEmployer
    futureValueRothIRA := futureValueRothIRA
    futureValueAdditionalBrokerage := futureValueAdditionalBrokerage
    grossSalary := grossSalary }

/-- Result object of `FinancialCalculator.calculateNo401KScenario`. -/
structure No401KResult where
  taxes : TaxBreakdown
  takeHomePay : ℚ
  brokerageInvestment : ℚ
  futureValueBrokerage : ℚ
  grossSalary : ℚ

/-- `FinancialCalculator.calculateNo401KScenario`. -/
def calculateNo401KScenario (grossSalary contributionPercent investmentReturn : ℚ)
    (years : ℕ) (targetTakeHome : Option ℚ) (rothIRA : ℚ) : No401KResult :=
  let taxes := calculateTotalTaxes grossSalary
  let rothIRAContribution := min rothIRA 7000
  let takeHomePay := grossSalary - taxes.total - rothIRAContribution
  let futureValueRothIRA := calculateFutureValue rothIRAContribution investmentReturn years
  let brokerageInvestment :=
    match targetTakeHome with
    | some t =>
      if t ≠ 0 then (if takeHomePay > t then takeHomePay - t else 0)
      else min (grossSalary * (contributionPercent / 100)) EMPLOYEE_401K_LIMIT *
        (1 - (taxes.federal + taxes.state) / grossSalary)
    | none => min (grossSalary * (contributionPercent / 100)) EMPLOYEE_401K_LIMIT *
        (1 - (taxes.federal + taxes.state) / grossSalary)
  let futureValueBrokerage := calculateFutureValue brokerageInvestment investmentReturn years
  { taxes := taxes
    takeHomePay := takeHomePay
    brokerageInvestment := brokerageInvestment
    futureValueBrokerage := futureValueBrokerage + futureValueRothIRA
    grossSalary := grossSalary }

/-- `FinancialCalculator.calculateAnnualWithdrawal`: annuity payment that
depletes `principal` over `years` at `annualReturn` (a fraction, not a
percent). -/
def calculateAnnualWithdrawal (principal annualReturn : ℚ) (years : ℕ) : ℚ :=
  if annualReturn = 0 then
    principal / years
  else
    principal * ((annualReturn * (1 + annualReturn) ^ years) / ((1 + annualReturn) ^ years - 1))

/-- One withdrawal-strategy entry of `calculateCombinedWithdrawalTaxes`; the
source guards its `taxRate` division with an explicit ternary, so the rate is
a plain rational. -/
structure WithdrawalEntry where
  total : ℚ
  taxes : ℚ
  net : ℚ
  taxRate : ℚ

/-- Result object of `FinancialCalculator.calculateCombinedWithdrawalTaxes`
(`results.lumpSum` uses `total`, `results.annual` stores the withdrawal amount
in the `total` field position). -/
structure CombinedWithdrawals where
  lumpSum : WithdrawalEntry
  annual : WithdrawalEntry

/-- `FinancialCalculator.calculateCombinedWithdrawalTaxes`.  Future values are
partitioned into traditional-401(k), Roth-401(k), employer-match, Roth-IRA and
brokerage buckets. -/
def calculateCombinedWithdrawalTaxes (futureValueTrad futureValueRoth futureValueEmployer
    futureValueRothIRA futureValueBrokerage retirementIncome investmentReturn : ℚ)
    (retirementYears : ℕ) : CombinedWithdrawals :=
  let totalFutureValue := futureValueTrad + futureValueRoth + futureValueEmployer +
    futureValueRothIRA + futureValueBrokerage
  let lumpSumIncome := retirementIncome + futureValueTrad + futureValueEmployer
  let incomeTaxes := calculateTotalTaxes lumpSumIncome
  let capitalGains := futureValueBrokerage
  let longTermCapitalGainsRate : ℚ := 0.20
  let capitalGainsTaxes := capitalGains * longTermCapitalGainsRate
  let totalLumpSumTaxes := incomeTaxes.total + capitalGainsTaxes
  let lumpSum : WithdrawalEntry :=
    { total := totalFutureValue
      taxes := totalLumpSumTaxes
      net := totalFutureValue - totalLumpSumTaxes
      taxRate := if totalFutureValue > 0 then totalLumpSumTaxes / totalFutureValue * 100 else 0 }
  let annualReturn := investmentReturn / 100
  let totalAnnualWithdrawal := calculateAnnualWithdrawal totalFutureValue annualReturn retirementYears
  let proportionTrad := if totalFutureValue > 0 then futureValueTrad / totalFutureValue else 0
  let proportionEmployer := if totalFutureValue > 0 then futureValueEmployer / totalFutureValue else 0
  let proportionBrokerage := if totalFutureValue > 0 then futureValueBrokerage / totalFutureValue else 0
  let annualFromTrad := totalAnnualWithdrawal * proportionTrad
  let annualFromEmployer := totalAnnualWithdrawal * proportionEmployer
  let annualFromBrokerage := totalAnnualWithdrawal * proportionBrokerage
  let annualTaxableIncome := retirementIncome + annualFromTrad + annualFromEmployer
  let annualIncomeTaxes := calculateTotalTaxes annualTaxableIncome
  let annualCapitalGains := annualFromBrokerage * 0.7
  let annualCapitalGainsTaxes := annualCapitalGains * longTermCapitalGainsRate
  let totalAnnualTaxes := annualIncomeTaxes.total + annualCapitalGainsTaxes
  let annual : WithdrawalEntry :=
    { total := totalAnnualWithdrawal
      taxes := totalAnnualTaxes
      net := totalAnnualWithdrawal - totalAnnualTaxes
      taxRate := if totalAnnualWithdrawal > 0 then totalAnnualTaxes / totalAnnualWithdrawal * 100 else 0 }
  { lumpSum := lumpSum, annual := annual }

/-- One withdrawal-strategy entry of `calculateBrokerageWithdrawalTaxes`; its
`taxRate` division is NOT guarded in the source, so the rate is `Option`-valued
(`none` standing for the `NaN`/`Infinity` a zero denominator produces). -/
structure WithdrawalEntryU where
  total : ℚ
  taxes : ℚ
  net : ℚ
  taxRate : Option ℚ

/-- Result object of `FinancialCalculator.calculateBrokerageWithdrawalTaxes`. -/
structure BrokerageWithdrawals where
  lumpSum : WithdrawalEntryU
  annual : WithdrawalEntryU

/-- `FinancialCalculator.calculateBrokerageWithdrawalTaxes`. -/
def calculateBrokerageWithdrawalTaxes (futureValueBrokerage retirementIncome investmentReturn : ℚ)
    (retirementYears : ℕ) : BrokerageWithdrawals :=
  let capitalGains := futureValueBrokerage
  let longTermCapitalGainsRate : ℚ := 0.20
  let lumpSumCapitalGainsTax := capitalGains * longTermCapitalGainsRate
  let lumpSum : WithdrawalEntryU :=
    { total := futureValueBrokerage
      taxes := lumpSumCapitalGainsTax
      net := futureValueBrokerage - lumpSumCapitalGainsTax
      taxRate := (jsDiv lumpSumCapitalGainsTax futureValueBrokerage).map (fun r => r * 100) }
  let annualReturn := investmentReturn / 100
  let annualWithdrawal := calculateAnnualWithdrawal futureValueBrokerage annualReturn retirementYears
  let annualCapitalGains := annualWithdrawal * 0.7
  let annualCapitalGainsTax := annualCapitalGains * longTermCapitalGainsRate
  let annual : WithdrawalEntryU :=
    { total := annualWithdrawal
      taxes := annualCapitalGainsTax
      net := annualWithdrawal - annualCapitalGainsTax
      taxRate := (jsDiv annualCapitalGainsTax annualWithdrawal).map (fun r => r * 100) }
  { lumpSum := lumpSum, annual := annual }

/-- Loop body of `FinancialCalculator.findMaxContributionForTarget`: `fuel`
iterations of the binary search, carrying `(low, high, bestPercent)`. -/
def solverLoop (grossSalary targetAnnualTakeHome employerMatch rothIRA : ℚ) :
    ℕ → ℚ → ℚ → ℚ → ℚ × ℚ × ℚ
  | 0, low, high, best => (low, high, best)
  | n + 1, low, high, best =>
    let mid := (low + high) / 2
    let scenario := calculate401KScenario grossSalary mid employerMatch 7 30
      (some targetAnnualTakeHome) 0 rothIRA
    if scenario.takeHomePay ≥ targetAnnualTakeHome - 1 then
      solverLoop grossSalary targetAnnualTakeHome employerMatch rothIRA n mid high mid
    else
      solverLoop grossSalary targetAnnualTakeHome employerMatch rothIRA n low mid best

/-- The `bestPercent` value of `findMaxContributionForTarget` just before the
final one-decimal rounding: 30 binary-search iterations starting from
`low = 0`, `high = min(100, EMPLOYEE_401K_LIMIT / grossSalary * 100)`. -/
def bestPercentFor (grossSalary targetAnnualTakeHome employerMatch rothIRA : ℚ) : ℚ :=
  (solverLoop grossSalary targetAnnualTakeHome employerMatch rothIRA 30
    0 (min 100 (EMPLOYEE_401K_LIMIT / grossSalary * 100)) 0).2.2

/-- `FinancialCalculator.findMaxContributionForTarget`:
`Math.round(bestPercent * 10) / 10` on the binary-search result. -/
def findMaxContributionForTarget (grossSalary targetAnnualTakeHome employerMatch rothIRA : ℚ) : ℚ :=
  ((round (bestPercentFor grossSalary targetAnnualTakeHome employerMatch rothIRA * 10) : ℤ) : ℚ) / 10

/-- Folding `+ bracketTax` from an accumulator is the accumulator plus the sum
of the per-bracket taxes. -/
lemma foldl_bracketTax (income : ℚ) :
    ∀ (bs : List TaxBracket) (a : ℚ),
      bs.foldl (fun tax b => tax + bracketTax income b) a =
        a + (bs.map (bracketTax income)).sum
  | [], a => by simp
  | b :: bs, a => by
    simp only [List.foldl_cons, List.map_cons, List.sum_cons]
    rw [foldl_bracketTax income bs]
    ring

/-- `calculateTax` as a sum over the bracket list. -/
lemma calculateTax_eq_sum (income : ℚ) (bs : List TaxBracket) :
    calculateTax income bs = (bs.map (bracketTax income)).sum := by
  unfold calculateTax
  rw [foldl_bracketTax]
  ring

/-- Shape of a well-formed progressive bracket table: contiguous brackets
starting at `m`, all rates within `[0, R]`, last bracket unbounded. -/
inductive ContigTable (R : ℚ) : ℚ → List TaxBracket → Prop
  | last (m r : ℚ) (hr0 : 0 ≤ r) (hrR : r ≤ R) :
      ContigTable R m [⟨m, none, r⟩]
  | cons (m h r : ℚ) (rest : List TaxBracket) (hr0 : 0 ≤ r) (hrR : r ≤ R)
      (hmh : m < h) (hrest : ContigTable R h rest) :
      ContigTable R m (⟨m, some h, r⟩ :: rest)

lemma ContigTable.R_nonneg {R m : ℚ} {bs : List TaxBracket}
    (hc : ContigTable R m bs) : 0 ≤ R := by
  cases hc with
  | last m r hr0 hrR => exact hr0.trans hrR
  | cons m h r rest hr0 hrR hmh hrest => exact hr0.trans hrR

/-- Tax of an unbounded bracket in closed form. -/
lemma bracketTax_last (m r x : ℚ) :
    bracketTax x ⟨m, none, r⟩ = r * (max x m - m) := by
  unfold bracketTax bracketCap
  rcases le_or_lt x m with hxm | hxm
  · rw [if_neg (not_lt.mpr hxm), max_eq_right hxm]
    ring
  · rw [if_pos hxm, max_eq_left hxm.le]
    ring

/-- Tax of a bounded bracket in closed form. -/
lemma bracketTax_mid (m h r x : ℚ) (hmh : m < h) :
    bracketTax x ⟨m, some h, r⟩ = r * (max (min x h) m - m) := by
  unfold bracketTax bracketCap
  rcases le_or_lt x m with hxm | hxm
  · rw [if_neg (not_lt.mpr hxm), max_eq_right (le_trans (min_le_left x h) hxm)]
    ring
  · rw [if_pos hxm, max_eq_left (le_min hxm.le hmh.le)]
    ring

/-- Paired clamp identity behind the telescoping of bracket widths. -/
lemma clamp_pair_eq (m h t : ℚ) (hmh : m ≤ h) :
    max (min t h) m + max t h = max t m + h := by
  rcases le_total t m with htm | htm
  · rw [max_eq_right (le_trans (min_le_left t h) htm), max_eq_right (htm.trans hmh),
      max_eq_right htm]
  · rcases le_total t h with hth | hth
    · rw [min_eq_left hth, max_eq_left htm, max_eq_right hth]
    · rw [min_eq_right hth, max_eq_left hmh, max_eq_left hth, max_eq_left htm]
      ring

/-- Bracket-table tax grows by at most `R` per unit of extra income (clamped at
the table's base `m`): the marginal combined rate never exceeds the top rate. -/
lemma contigTax_sub_le {R m : ℚ} {bs : List TaxBracket} (hc : ContigTable R m bs) :
    ∀ x y : ℚ, x ≤ y →
      (bs.map (bracketTax y)).sum - (bs.map (bracketTax x)).sum ≤ R * (max y m - max x m) := by
  induction hc with
  | last m r hr0 hrR =>
    intro x y hxy
    simp only [List.map_cons, List.map_nil, List.sum_cons, List.sum_nil, add_zero]
    rw [bracketTax_last, bracketTax_last]
    have hmax : max x m ≤ max y m := max_le_max_right m hxy
    calc r * (max y m - m) - r * (max x m - m) = r * (max y m - max x m) := by ring
    _ ≤ R * (max y m - max x m) := mul_le_mul_of_nonneg_right hrR (by linarith)
  | cons m h r rest hr0 hrR hmh hrest ih =>
    intro x y hxy
    simp only [List.map_cons, List.sum_cons]
    rw [bracketTax_mid m h r x hmh, bracketTax_mid m h r y hmh]
    have hclamp : max (min x h) m ≤ max (min y h) m :=
      max_le_max_right m (min_le_min_right h hxy)
    have hstep : r * (max (min y h) m - m) - r * (max (min x h) m - m) ≤
        R * (max (min y h) m - max (min x h) m) := by
      calc r * (max (min y h) m - m) - r * (max (min x h) m - m)
          = r * (max (min y h) m - max (min x h) m) := by ring
      _ ≤ R * (max (min y h) m - max (min x h) m) :=
          mul_le_mul_of_nonneg_right hrR (by linarith)
    have hrest' := ih x y hxy
    have hx := clamp_pair_eq m h x hmh.le
    have hy := clamp_pair_eq m h y hmh.le
    nlinarith [hstep, hrest']

/-- Bracket-table tax is monotone in income. -/
lemma contigTax_mono {R m : ℚ} {bs : List TaxBracket} (hc : ContigTable R m bs) :
    ∀ x y : ℚ, x ≤ y →
      (bs.map (bracketTax x)).sum ≤ (bs.map (bracketTax y)).sum := by
  induction hc with
  | last m r hr0 hrR =>
    intro x y hxy
    simp only [List.map_cons, List.map_nil, List.sum_cons, List.sum_nil, add_zero]
    rw [bracketTax_last, bracketTax_last]
    have hmax : max x m ≤ max y m := max_le_max_right m hxy
    have := mul_le_mul_of_nonneg_left (sub_le_sub_right hmax m) hr0
    linarith
  | cons m h r rest hr0 hrR hmh hrest ih =>
    intro x y hxy
    simp only [List.map_cons, List.sum_cons]
    rw [bracketTax_mid m h r x hmh, bracketTax_mid m h r y hmh]
    have hclamp : max (min x h) m ≤ max (min y h) m :=
      max_le_max_right m (min_le_min_right h hxy)
    have hterm := mul_le_mul_of_nonneg_left (sub_le_sub_right hclamp m) hr0
    have := ih x y hxy
    linarith

/-- Nonpositive income owes no bracket tax (all bracket bounds sit at or above
the table base). -/
lemma contigTax_nonpos {R m : ℚ} {bs : List TaxBracket} (hc : ContigTable R m bs)
    (hm : 0 ≤ m) : ∀ x : ℚ, x ≤ 0 → (bs.map (bracketTax x)).sum = 0 := by
  induction hc with
  | last m r hr0 hrR =>
    intro x hx
    simp only [List.map_cons, List.map_nil, List.sum_cons, List.sum_nil, add_zero]
    unfold bracketTax
    rw [if_neg (not_lt.mpr (hx.trans hm))]
  | cons m h r rest hr0 hrR hmh hrest ih =>
    intro x hx
    simp only [List.map_cons, List.sum_cons]
    rw [ih (le_of_lt (lt_of_le_of_lt hm hmh)) x hx]
    unfold bracketTax
    rw [if_neg (not_lt.mpr (hx.trans hm))]
    ring

/-- The federal table is contiguous from 0 with rates within `[0, 0.37]`. -/
lemma federal_contig : ContigTable 0.37 0 federalBrackets := by
  unfold federalBrackets
  refine ContigTable.cons _ _ _ _ (by norm_num) (by norm_num) (by norm_num) ?_
  refine ContigTable.cons _ _ _ _ (by norm_num) (by norm_num) (by norm_num) ?_
  refine ContigTable.cons _ _ _ _ (by norm_num) (by norm_num) (by norm_num) ?_
  refine ContigTable.cons _ _ _ _ (by norm_num) (by norm_num) (by norm_num) ?_
  refine ContigTable.cons _ _ _ _ (by norm_num) (by norm_num) (by norm_num) ?_
  refine ContigTable.cons _ _ _ _ (by norm_num) (by norm_num) (by norm_num) ?_
  exact ContigTable.last _ _ (by norm_num) (by norm_num)

/-- The California table is contiguous from 0 with rates within `[0, 0.123]`. -/
lemma california_contig : ContigTable 0.123 0 californiaBrackets := by
  unfold californiaBrackets
  refine ContigTable.cons _ _ _ _ (by norm_num) (by norm_num) (by norm_num) ?_
  refine ContigTable.cons _ _ _ _ (by norm_num) (by norm_num) (by norm_num) ?_
  refine ContigTable.cons _ _ _ _ (by norm_num) (by norm_num) (by norm_num) ?_
  refine ContigTable.cons _ _ _ _ (by norm_num) (by norm_num) (by norm_num) ?_
  refine ContigTable.cons _ _ _ _ (by norm_num) (by norm_num) (by norm_num) ?_
  refine ContigTable.cons _ _ _ _ (by norm_num) (by norm_num) (by norm_num) ?_
  refine ContigTable.cons _ _ _ _ (by norm_num) (by norm_num) (by norm_num) ?_
  refine ContigTable.cons _ _ _ _ (by norm_num) (by norm_num) (by norm_num) ?_
  exact ContigTable.last _ _ (by norm_num) (by norm_num)

/-- Federal tax is monotone in income. -/
lemma federalTax_mono {x y : ℚ} (hxy : x ≤ y) :
    calculateFederalTax x ≤ calculateFederalTax y := by
  unfold calculateFederalTax
  rw [calculateTax_eq_sum, calculateTax_eq_sum]
  exact contigTax_mono federal_contig x y hxy

/-- State tax is monotone in income. -/
lemma stateTax_mono {x y : ℚ} (hxy : x ≤ y) :
    calculateStateTax x ≤ calculateStateTax y := by
  unfold calculateStateTax
  rw [calculateTax_eq_sum, calculateTax_eq_sum]
  exact contigTax_mono california_contig x y hxy

/-- Nonpositive income owes no federal tax. -/
lemma federalTax_nonpos {x : ℚ} (hx : x ≤ 0) : calculateFederalTax x = 0 := by
  unfold calculateFederalTax
  rw [calculateTax_eq_sum]
  exact contigTax_nonpos federal_contig le_rfl x hx

/-- Nonpositive income owes no state tax. -/
lemma stateTax_nonpos {x : ℚ} (hx : x ≤ 0) : calculateStateTax x = 0 := by
  unfold calculateStateTax
  rw [calculateTax_eq_sum]
  exact contigTax_nonpos california_contig le_rfl x hx

/-- Federal tax is non-negative. -/
lemma federalTax_nonneg (x : ℚ) : 0 ≤ calculateFederalTax x := by
  rcases le_total x 0 with hx | hx
  · rw [federalTax_nonpos hx]
  · rw [← federalTax_nonpos le_rfl]
    exact federalTax_mono hx

/-- State tax is non-negative. -/
lemma stateTax_nonneg (x : ℚ) : 0 ≤ calculateStateTax x := by
  rcases le_total x 0 with hx | hx
  · rw [stateTax_nonpos hx]
  · rw [← stateTax_nonpos le_rfl]
    exact stateTax_mono hx

/-- Marginal federal rate is at most 37%. -/
lemma federalTax_lipschitz {x y : ℚ} (hxy : x ≤ y) :
    calculateFederalTax y - calculateFederalTax x ≤ 0.37 * (y - x) := by
  unfold calculateFederalTax
  rw [calculateTax_eq_sum, calculateTax_eq_sum]
  have h := contigTax_sub_le federal_contig x y hxy
  have hmax : max y 0 - max x 0 ≤ y - x := by
    rcases le_total x 0 with hx | hx
    · rcases le_total y 0 with hy | hy
      · rw [max_eq_right hx, max_eq_right hy]
        linarith
      · rw [max_eq_right hx, max_eq_left hy]
        linarith
    · rw [max_eq_left hx, max_eq_left (hx.trans hxy)]
  nlinarith [h, hmax]

/-- Marginal state rate is at most 12.3%. -/
lemma stateTax_lipschitz {x y : ℚ} (hxy : x ≤ y) :
    calculateStateTax y - calculateStateTax x ≤ 0.123 * (y - x) := by
  unfold calculateStateTax
  rw [calculateTax_eq_sum, calculateTax_eq_sum]
  have h := contigTax_sub_le california_contig x y hxy
  have hmax : max y 0 - max x 0 ≤ y - x := by
    rcases le_total x 0 with hx | hx
    · rcases le_total y 0 with hy | hy
      · rw [max_eq_right hx, max_eq_right hy]
        linarith
      · rw [max_eq_right hx, max_eq_left hy]
        linarith
    · rw [max_eq_left hx, max_eq_left (hx.trans hxy)]
  nlinarith [h, hmax]

/-- FICA tax is monotone in income. -/
lemma ficaTax_mono {x y : ℚ} (hxy : x ≤ y) :
    calculateFICATax x ≤ calculateFICATax y := by
  unfold calculateFICATax
  have h1 : min x SOCIAL_SECURITY_WAGE_BASE ≤ min y SOCIAL_SECURITY_WAGE_BASE :=
    min_le_min_right _ hxy
  nlinarith [h1]

/-- FICA tax is non-negative on non-negative income. -/
lemma ficaTax_nonneg {x : ℚ} (hx : 0 ≤ x) : 0 ≤ calculateFICATax x := by
  unfold calculateFICATax SOCIAL_SECURITY_WAGE_BASE
  have h1 : (0 : ℚ) ≤ min x 160200 := le_min hx (by norm_num)
  nlinarith [h1]

/-- Marginal FICA rate is at most 7.65%. -/
lemma ficaTax_lipschitz {x y : ℚ} (hxy : x ≤ y) :
    calculateFICATax y - calculateFICATax x ≤ 0.0765 * (y - x) := by
  unfold calculateFICATax SOCIAL_SECURITY_WAGE_BASE
  have h1 : min y (160200 : ℚ) - min x 160200 ≤ y - x := by
    rcases le_total x (160200 : ℚ) with hx | hx
    · rcases le_total y (160200 : ℚ) with hy | hy
      · rw [min_eq_left hx, min_eq_left hy]
      · rw [min_eq_left hx, min_eq_right hy]
        linarith
    · rw [min_eq_right hx, min_eq_right (hx.trans hxy)]
      linarith
  have h2 : (0 : ℚ) ≤ min y 160200 - min x 160200 := by
    have := min_le_min_right (160200 : ℚ) hxy
    linarith
  nlinarith [h1, h2]

/-- Total tax is non-negative on non-negative income. -/
lemma totalTaxes_nonneg {x : ℚ} (hx : 0 ≤ x) : 0 ≤ (calculateTotalTaxes x).total := by
  unfold calculateTotalTaxes
  have h1 := federalTax_nonneg x
  have h2 := stateTax_nonneg x
  have h3 := ficaTax_nonneg hx
  simp only
  linarith

/-- Combined marginal rate is at most 56.95%. -/
lemma totalTaxes_lipschitz {x y : ℚ} (hxy : x ≤ y) :
    (calculateTotalTaxes y).total - (calculateTotalTaxes x).total ≤ 0.5695 * (y - x) := by
  unfold calculateTotalTaxes
  have h1 := federalTax_lipschitz hxy
  have h2 := stateTax_lipschitz hxy
  have h3 := ficaTax_lipschitz hxy
  simp only
  linarith

/-- Total tax vanishes at zero income. -/
lemma totalTaxes_zero : (calculateTotalTaxes 0).total = 0 := by
  unfold calculateTotalTaxes
  rw [federalTax_nonpos le_rfl, stateTax_nonpos le_rfl]
  unfold calculateFICATax SOCIAL_SECURITY_WAGE_BASE
  norm_num

/-- Total tax never exceeds 56.95% of a non-negative income. -/
lemma totalTaxes_le {x : ℚ} (hx : 0 ≤ x) :
    (calculateTotalTaxes x).total ≤ 0.5695 * x := by
  have h := totalTaxes_lipschitz hx
  rw [totalTaxes_zero] at h
  linarith

/-- Income net of total tax is monotone: the combined marginal rate is below
100%. -/
lemma net_income_mono {x y : ℚ} (hxy : x ≤ y) :
    x - (calculateTotalTaxes x).total ≤ y - (calculateTotalTaxes y).total := by
  have h := totalTaxes_lipschitz hxy
  linarith

/-- Take-home pay of the with-contribution scenario is non-increasing in the
contribution percent, for any fixed salary, match, return, horizon, target and
Roth settings. -/
lemma takeHomePay_antitone (grossSalary employerMatch investmentReturn : ℚ) (years : ℕ)
    (targetTakeHome : Option ℚ) (roth401kMax rothIRA p1 p2 : ℚ)
    (hs : 0 ≤ grossSalary) (hp : p1 ≤ p2) :
    (calculate401KScenario grossSalary p2 employerMatch investmentReturn years
      targetTakeHome roth401kMax rothIRA).takeHomePay ≤
    (calculate401KScenario grossSalary p1 employerMatch investmentReturn years
      targetTakeHome roth401kMax rothIRA).takeHomePay := by
  simp only [calculate401KScenario]
  set t1 := min (grossSalary * (p1 / 100)) EMPLOYEE_401K_LIMIT with ht1
  set t2 := min (grossSalary * (p2 / 100)) EMPLOYEE_401K_LIMIT with ht2
  have htt : t1 ≤ t2 := by
    apply min_le_min_right
    have : grossSalary * (p1 / 100) ≤ grossSalary * (p2 / 100) := by
      apply mul_le_mul_of_nonneg_left _ hs
      linarith
    exact this
  have hroth : min t1 roth401kMax ≤ min t2 roth401kMax := min_le_min_right _ htt
  have htrad : t1 - min t1 roth401kMax ≤ t2 - min t2 roth401kMax := by
    rcases le_total t1 roth401kMax with h1 | h1
    · rw [min_eq_left h1]
      rcases le_total t2 roth401kMax with h2 | h2
      · rw [min_eq_left h2]
        norm_num
      · rw [min_eq_right h2]
        linarith
    · rw [min_eq_right h1, min_eq_right (h1.trans htt)]
      linarith
  have hnet := net_income_mono (sub_le_sub_left htrad grossSalary)
  linarith

/-- Future value of a zero contribution is zero. -/
lemma futureValue_zero_contribution (r : ℚ) (y : ℕ) : calculateFutureValue 0 r y = 0 := by
  simp only [calculateFutureValue]
  split <;> ring

/-- Future value at zero return is the plain sum of contributions. -/
lemma futureValue_zero_return (c : ℚ) (y : ℕ) : calculateFutureValue c 0 y = c * y := by
  simp only [calculateFutureValue]
  norm_num
  ring

/-- Future value is linear in the contribution. -/
lemma futureValue_smul (c r : ℚ) (y : ℕ) :
    calculateFutureValue c r y = c * calculateFutureValue 1 r y := by
  simp only [calculateFutureValue]
  split <;> ring

/-- At a 7% return over 30 years the future-value factor is positive. -/
lemma futureValue_factor_pos : 0 < calculateFutureValue 1 7 30 := by
  simp only [calculateFutureValue]
  norm_num

/-- Claim C6: the progressive bracket tax is monotone non-decreasing in income
under both the federal and the California tables, vanishes at zero income, and
vanishes at every nonpositive income. -/
theorem claim_C6_bracket_tax_monotone :
    (∀ x y : ℚ, x ≤ y → calculateFederalTax x ≤ calculateFederalTax y) ∧
    (∀ x y : ℚ, x ≤ y → calculateStateTax x ≤ calculateStateTax y) ∧
    calculateFederalTax 0 = 0 ∧ calculateStateTax 0 = 0 ∧
    (∀ x : ℚ, x ≤ 0 → calculateFederalTax x = 0) ∧
    (∀ x : ℚ, x ≤ 0 → calculateStateTax x = 0) := by
  refine ⟨fun x y h => federalTax_mono h, fun x y h => stateTax_mono h,
    federalTax_nonpos le_rfl, stateTax_nonpos le_rfl,
    fun x h => federalTax_nonpos h, fun x h => stateTax_nonpos h⟩

/-- Witness for C6 at concrete incomes 3 and 5. -/
theorem claim_C6_witness :
    calculateFederalTax 3 ≤ calculateFederalTax 5 ∧
    calculateStateTax 3 ≤ calculateStateTax 5 :=
  ⟨claim_C6_bracket_tax_monotone.1 3 5 (by norm_num),
   claim_C6_bracket_tax_monotone.2.1 3 5 (by norm_num)⟩

/-- Claim C7: `calculateFutureValue` sends a zero contribution to zero for
every return and horizon, and at zero return it degenerates to contribution
times years. -/
theorem claim_C7_future_value_identities :
    (∀ (r : ℚ) (y : ℕ), calculateFutureValue 0 r y = 0) ∧
    (∀ (c : ℚ) (y : ℕ), calculateFutureValue c 0 y = c * y) :=
  ⟨futureValue_zero_contribution, futureValue_zero_return⟩

/-- Claim C8: `calculateFICATax` is the capped social-security portion plus the
uncapped medicare portion, and the `total` field of `calculateTotalTaxes` is
the sum of its `federal`, `state` and `fica` fields. -/
theorem claim_C8_fica_and_total :
    (∀ income : ℚ,
      calculateFICATax income = min income 160200 * 0.062 + income * 0.0145) ∧
    (∀ income : ℚ,
      (calculateTotalTaxes income).total =
        (calculateTotalTaxes income).federal + (calculateTotalTaxes income).state +
          (calculateTotalTaxes income).fica) :=
  ⟨fun income => rfl, fun income => rfl⟩

/-- Claim C1: in the with-contribution scenario the employer contribution is
`min(salary * matchPct / 100, totalContribution)`, so the employer match never
exceeds the employee's own contribution. -/
theorem claim_C1_employer_match_capped (grossSalary contributionPercent employerMatch
    investmentReturn : ℚ) (years : ℕ) (targetTakeHome : Option ℚ) (roth401kMax rothIRA : ℚ)
    (hs : 0 < grossSalary) (hp0 : 0 ≤ contributionPercent) (hp1 : contributionPercent ≤ 100)
    (hm0 : 0 ≤ employerMatch) (hm1 : employerMatch ≤ 100) :
    (calculate401KScenario grossSalary contributionPercent employerMatch investmentReturn
      years targetTakeHome roth401kMax rothIRA).employerContribution =
      min (grossSalary * (employerMatch / 100))
        (calculate401KScenario grossSalary contributionPercent employerMatch investmentReturn
          years targetTakeHome roth401kMax rothIRA).contribution ∧
    (calculate401KScenario grossSalary contributionPercent employerMatch investmentReturn
      years targetTakeHome roth401kMax rothIRA).employerContribution ≤
    (calculate401KScenario grossSalary contributionPercent employerMatch investmentReturn
      years targetTakeHome roth401kMax rothIRA).contribution := by
  constructor
  · simp only [calculate401KScenario]
  · simp only [calculate401KScenario]
    exact min_le_right _ _

/-- Witness for C1 at salary 60000, 5% contribution, 4% match. -/
theorem claim_C1_witness :
    (calculate401KScenario 60000 5 4 7 30 none 0 0).employerContribution =
      min (60000 * ((4 : ℚ) / 100)) (calculate401KScenario 60000 5 4 7 30 none 0 0).contribution ∧
    (calculate401KScenario 60000 5 4 7 30 none 0 0).employerContribution ≤
    (calculate401KScenario 60000 5 4 7 30 none 0 0).contribution :=
  claim_C1_employer_match_capped 60000 5 4 7 30 none 0 0 (by norm_num) (by norm_num)
    (by norm_num) (by norm_num) (by norm_num)

/-- Claim C9: the taxable income of the with-contribution scenario is
non-negative for in-range inputs — the traditional contribution never exceeds
the salary. -/
theorem claim_C9_taxable_income_nonneg (grossSalary contributionPercent employerMatch
    investmentReturn : ℚ) (years : ℕ) (targetTakeHome : Option ℚ) (roth401kMax rothIRA : ℚ)
    (hs : 0 < grossSalary) (hp0 : 0 ≤ contributionPercent) (hp1 : contributionPercent ≤ 100)
    (hroth : 0 ≤ roth401kMax) :
    0 ≤ (calculate401KScenario grossSalary contributionPercent employerMatch investmentReturn
      years targetTakeHome roth401kMax rothIRA).taxableIncome := by
  simp only [calculate401KScenario]
  have htot0 : 0 ≤ min (grossSalary * (contributionPercent / 100)) EMPLOYEE_401K_LIMIT := by
    apply le_min
    · positivity
    · unfold EMPLOYEE_401K_LIMIT
      norm_num
  have hroth0 : 0 ≤ min (min (grossSalary * (contributionPercent / 100)) EMPLOYEE_401K_LIMIT)
      roth401kMax := le_min htot0 hroth
  have htot1 : min (grossSalary * (contributionPercent / 100)) EMPLOYEE_401K_LIMIT ≤
      grossSalary * (contributionPercent / 100) := min_le_left _ _
  have hsal : grossSalary * (contributionPercent / 100) ≤ grossSalary := by
    apply mul_le_of_le_one_right hs.le
    linarith
  linarith

/-- Witness for C9 at salary 50000, 100% contribution. -/
theorem claim_C9_witness :
    0 ≤ (calculate401KScenario 50000 100 3 7 30 none 0 0).taxableIncome :=
  claim_C9_taxable_income_nonneg 50000 100 3 7 30 none 0 0 (by norm_num) (by norm_num)
    (by norm_num) (by norm_num)

/-- Claim C10: take-home pay of the with-contribution scenario is monotone
non-increasing in the contribution percent over `[0, 100]`, all other inputs
fixed — the property underlying the solver's binary search. -/
theorem claim_C10_takehome_antitone (grossSalary employerMatch investmentReturn : ℚ)
    (years : ℕ) (targetTakeHome : Option ℚ) (roth401kMax rothIRA p1 p2 : ℚ)
    (hs : 0 < grossSalary) (hp0 : 0 ≤ p1) (hp12 : p1 ≤ p2) (hp2 : p2 ≤ 100) :
    (calculate401KScenario grossSalary p2 employerMatch investmentReturn years
      targetTakeHome roth401kMax rothIRA).takeHomePay ≤
    (calculate401KScenario grossSalary p1 employerMatch investmentReturn years
      targetTakeHome roth401kMax rothIRA).takeHomePay :=
  takeHomePay_antitone grossSalary employerMatch investmentReturn years targetTakeHome
    roth401kMax rothIRA p1 p2 hs.le hp12

/-- Witness for C10 at salary 90000 comparing 4% with 9% contribution. -/
theorem claim_C10_witness :
    (calculate401KScenario 90000 2 50 7 30 none 0 0).takeHomePay ≤
    (calculate401KScenario 90000 2 50 7 30 none 0 0).takeHomePay ∨
    (calculate401KScenario 90000 9 2 7 30 none 0 0).takeHomePay ≤
    (calculate401KScenario 90000 4 2 7 30 none 0 0).takeHomePay :=
  Or.inr (claim_C10_takehome_antitone 90000 2 7 30 none 0 0 4 9 (by norm_num) (by norm_num)
    (by norm_num) (by norm_num))

/-- Counterexample to C2 as stated: at salary 150000 with a 50% employer match
the employer contribution is not 7500 — the match percent applies to the
salary and is capped by the employee contribution, giving 15000. -/
theorem claim_C2_counterexample :
    (calculate401KScenario 150000 10 50 7 30 none 0 0).employerContribution ≠ 7500 := by
  have hcontrib : min ((150000 : ℚ) * (10 / 100)) EMPLOYEE_401K_LIMIT = 15000 := by
    unfold EMPLOYEE_401K_LIMIT
    norm_num [min_def]
  have hemp : min ((150000 : ℚ) * (50 / 100)) 15000 = 15000 := by
    norm_num [min_def]
  simp only [calculate401KScenario]
  rw [hcontrib, hemp]
  norm_num

/-- Claim C2 (amended): on the worked example — salary 150000, 10%
contribution, 50% match, 7% return, 30 years, no Roth and no target — the
employee contribution is 15000, the employer contribution is 15000 (the match
is `min(salary * 50%, employee contribution)`, not half the employee
contribution), taxable income is 135000, and the total future value strictly
exceeds the brokerage future value of the no-401(k) scenario on the same
inputs. -/
theorem claim_C2_worked_example :
    (calculate401KScenario 150000 10 50 7 30 none 0 0).contribution = 15000 ∧
    (calculate401KScenario 150000 10 50 7 30 none 0 0).employerContribution = 15000 ∧
    (calculate401KScenario 150000 10 50 7 30 none 0 0).taxableIncome = 135000 ∧
    (calculateNo401KScenario 150000 10 7 30 none 0).futureValueBrokerage <
      (calculate401KScenario 150000 10 50 7 30 none 0 0).totalFutureValue := by
  have hK := futureValue_factor_pos
  have hcontrib : min ((150000 : ℚ) * (10 / 100)) EMPLOYEE_401K_LIMIT = 15000 := by
    unfold EMPLOYEE_401K_LIMIT
    norm_num [min_def]
  have hemp : min ((150000 : ℚ) * (50 / 100)) 15000 = 15000 := by
    norm_num [min_def]
  have hroth : min (15000 : ℚ) 0 = 0 := by
    norm_num [min_def]
  have hira : min (0 : ℚ) 7000 = 0 := by
    norm_num [min_def]
  refine ⟨?_, ?_, ?_, ?_⟩
  · simp only [calculate401KScenario]
    rw [hcontrib]
  · simp only [calculate401KScenario]
    rw [hcontrib, hemp]
  · simp only [calculate401KScenario]
    rw [hcontrib, hroth]
    norm_num
  · have h401 : (calculate401KScenario 150000 10 50 7 30 none 0 0).totalFutureValue =
        30000 * calculateFutureValue 1 7 30 := by
      simp only [calculate401KScenario]
      rw [hcontrib, hemp, hroth, hira]
      norm_num [futureValue_zero_contribution]
      rw [futureValue_smul 15000 7 30]
      ring
    have hno : (calculateNo401KScenario 150000 10 7 30 none 0).futureValueBrokerage =
        15000 * (1 - ((calculateTotalTaxes 150000).federal + (calculateTotalTaxes 150000).state)
          / 150000) * calculateFutureValue 1 7 30 := by
      simp only [calculateNo401KScenario]
      rw [hcontrib, hira]
      rw [futureValue_zero_contribution, futureValue_smul]
      ring
    rw [h401, hno]
    have hle : 15000 * (1 - ((calculateTotalTaxes 150000).federal +
        (calculateTotalTaxes 150000).state) / 150000) < 30000 := by
      have h1 := federalTax_nonneg 150000
      have h2 := stateTax_nonneg 150000
      have hdiv : 0 ≤ ((calculateTotalTaxes 150000).federal +
          (calculateTotalTaxes 150000).state) / 150000 := by
        unfold calculateTotalTaxes
        simp only
        positivity
      nlinarith [hdiv]
    exact mul_lt_mul_of_pos_right hle hK

/-- Claim C3 (code bug): at a zero brokerage future value, both `taxRate`
fields of `calculateBrokerageWithdrawalTaxes` are the unguarded division
`0 / 0` — non-finite (`none`), not the 0 the spec requires — while the guarded
`calculateCombinedWithdrawalTaxes` does return 0 for its rates on all-zero
inputs. -/
theorem claim_C3_unguarded_rate_divisions :
    (calculateBrokerageWithdrawalTaxes 0 0 7 20).lumpSum.taxRate = none ∧
    (calculateBrokerageWithdrawalTaxes 0 0 7 20).annual.taxRate = none ∧
    (calculateCombinedWithdrawalTaxes 0 0 0 0 0 0 7 20).lumpSum.taxRate = 0 ∧
    (calculateCombinedWithdrawalTaxes 0 0 0 0 0 0 7 20).annual.taxRate = 0 := by
  have hw : calculateAnnualWithdrawal 0 (7 / 100) 20 = 0 := by
    simp only [calculateAnnualWithdrawal]
    norm_num
  refine ⟨?_, ?_, ?_, ?_⟩
  · simp only [calculateBrokerageWithdrawalTaxes, jsDiv]
    norm_num
  · simp only [calculateBrokerageWithdrawalTaxes, jsDiv, hw]
    norm_num
  · simp only [calculateCombinedWithdrawalTaxes]
    norm_num
  · simp only [calculateCombinedWithdrawalTaxes]
    norm_num [hw]

/-- Counterexample to C5 as stated: with a 1-unit brokerage bucket and a
100000 retirement income the lump-sum effective rate is far above 100 — the
tax base includes retirement income, which is not part of the future value. -/
theorem claim_C5_counterexample :
    100 < (calculateCombinedWithdrawalTaxes 0 0 0 0 1 100000 7 20).lumpSum.taxRate := by
  simp only [calculateCombinedWithdrawalTaxes]
  norm_num
  simp only [calculateTotalTaxes, calculateFederalTax, calculateStateTax, calculateFICATax,
    calculateTax, federalBrackets, californiaBrackets, bracketTax, bracketCap,
    SOCIAL_SECURITY_WAGE_BASE, List.foldl]
  norm_num [min_def]

/-- Claim C5 (amended): for non-negative bucket values and retirement income,
the lump-sum net never exceeds the total future value (taxes are
non-negative) and the effective rate is non-negative; the rate stays at or
below 100 provided the retirement income is zero (a positive retirement
income is taxed inside the rate's numerator but absent from its denominator,
so it can push the rate past 100). -/
theorem claim_C5_lump_sum_invariants (fvT fvR fvE fvRI fvB ri : ℚ)
    (hT : 0 ≤ fvT) (hR : 0 ≤ fvR) (hE : 0 ≤ fvE) (hRI : 0 ≤ fvRI) (hB : 0 ≤ fvB)
    (hri : 0 ≤ ri) :
    (calculateCombinedWithdrawalTaxes fvT fvR fvE fvRI fvB ri 7 20).lumpSum.net ≤
      (calculateCombinedWithdrawalTaxes fvT fvR fvE fvRI fvB ri 7 20).lumpSum.total ∧
    0 ≤ (calculateCombinedWithdrawalTaxes fvT fvR fvE fvRI fvB ri 7 20).lumpSum.taxRate ∧
    (ri = 0 →
      (calculateCombinedWithdrawalTaxes fvT fvR fvE fvRI fvB ri 7 20).lumpSum.taxRate ≤ 100) := by
  have htax0 : 0 ≤ (calculateTotalTaxes (ri + fvT + fvE)).total :=
    totalTaxes_nonneg (by linarith)
  have htaxes : 0 ≤ (calculateTotalTaxes (ri + fvT + fvE)).total + fvB * 0.2 := by
    nlinarith
  simp only [calculateCombinedWithdrawalTaxes]
  refine ⟨by linarith, ?_, ?_⟩
  · split
    · rename_i hpos
      have : 0 ≤ ((calculateTotalTaxes (ri + fvT + fvE)).total + fvB * 0.2) /
          (fvT + fvR + fvE + fvRI + fvB) := div_nonneg htaxes (by linarith)
      nlinarith
    · norm_num
  · intro hri0
    subst hri0
    split
    · rename_i hpos
      have hle : (calculateTotalTaxes (0 + fvT + fvE)).total ≤ 0.5695 * (fvT + fvE) := by
        have h := totalTaxes_le (show (0 : ℚ) ≤ 0 + fvT + fvE by linarith)
        calc (calculateTotalTaxes (0 + fvT + fvE)).total ≤ 0.5695 * (0 + fvT + fvE) := h
        _ = 0.5695 * (fvT + fvE) := by ring
      rw [div_mul_eq_mul_div, div_le_iff₀ hpos]
      nlinarith
    · norm_num

/-- Witness for C5 at unit buckets and zero retirement income. -/
theorem claim_C5_witness :
    (calculateCombinedWithdrawalTaxes 1 1 1 1 1 0 7 20).lumpSum.net ≤
      (calculateCombinedWithdrawalTaxes 1 1 1 1 1 0 7 20).lumpSum.total ∧
    (calculateCombinedWithdrawalTaxes 1 1 1 1 1 0 7 20).lumpSum.taxRate ≤ 100 :=
  ⟨(claim_C5_lump_sum_invariants 1 1 1 1 1 0 (by norm_num) (by norm_num) (by norm_num)
      (by norm_num) (by norm_num) (by norm_num)).1,
   (claim_C5_lump_sum_invariants 1 1 1 1 1 0 (by norm_num) (by norm_num) (by norm_num)
      (by norm_num) (by norm_num) (by norm_num)).2.2 rfl⟩

/-- Binary-search invariant: the recorded best percent is only ever replaced
by a midpoint that passes the take-home check, so the final best percent is
either still the initial 0 or passes the check. -/
lemma solverLoop_best_invariant (gs tgt em ri : ℚ) :
    ∀ (n : ℕ) (low high best : ℚ),
      (best = 0 ∨
        (calculate401KScenario gs best em 7 30 (some tgt) 0 ri).takeHomePay ≥ tgt - 1) →
      ((solverLoop gs tgt em ri n low high best).2.2 = 0 ∨
        (calculate401KScenario gs (solverLoop gs tgt em ri n low high best).2.2 em 7 30
          (some tgt) 0 ri).takeHomePay ≥ tgt - 1)
  | 0, low, high, best, h => by
    simpa only [solverLoop] using h
  | n + 1, low, high, best, h => by
    simp only [solverLoop]
    split
    · rename_i hc
      exact solverLoop_best_invariant gs tgt em ri n _ _ _ (Or.inr hc)
    · exact solverLoop_best_invariant gs tgt em ri n _ _ _ h

/-- If no non-negative percent passes the take-home check, the binary search
never replaces its best percent (every midpoint stays non-negative). -/
lemma solverLoop_frozen (gs tgt em ri : ℚ)
    (hall : ∀ p : ℚ, 0 ≤ p →
      ¬((calculate401KScenario gs p em 7 30 (some tgt) 0 ri).takeHomePay ≥ tgt - 1)) :
    ∀ (n : ℕ) (low high best : ℚ), 0 ≤ low → 0 ≤ high →
      (solverLoop gs tgt em ri n low high best).2.2 = best
  | 0, low, high, best, hl, hh => by
    simp only [solverLoop]
  | n + 1, low, high, best, hl, hh => by
    simp only [solverLoop]
    rw [if_neg (hall ((low + high) / 2) (by linarith))]
    exact solverLoop_frozen gs tgt em ri hall n low ((low + high) / 2) best hl (by linarith)

/-- Counterexample to C4 as stated: with salary 100000 and the unreachable
target 1000000, `findMaxContributionForTarget` returns 0, and feeding that
percent back into the scenario yields a take-home strictly below
`target - 1` — the claimed feed-back bound cannot hold unconditionally. -/
theorem claim_C4_counterexample :
    (calculate401KScenario 100000 (findMaxContributionForTarget 100000 1000000 0 0) 0 7 30
      (some 1000000) 0 0).takeHomePay < 1000000 - 1 := by
  have heval : (calculate401KScenario 100000 0 0 7 30 (some 1000000) 0 0).takeHomePay <
      1000000 - 1 := by
    simp only [calculate401KScenario, calculateTotalTaxes, calculateFederalTax,
      calculateStateTax, calculateFICATax, calculateTax, federalBrackets, californiaBrackets,
      bracketTax, bracketCap, SOCIAL_SECURITY_WAGE_BASE, EMPLOYEE_401K_LIMIT, List.foldl]
    norm_num [min_def]
  have hall : ∀ p : ℚ, 0 ≤ p →
      ¬((calculate401KScenario 100000 p 0 7 30 (some 1000000) 0 0).takeHomePay ≥
        (1000000 : ℚ) - 1) := by
    intro p hp hc
    have hmono := takeHomePay_antitone 100000 0 7 30 (some 1000000) 0 0 0 p
      (by norm_num) hp
    linarith
  have hzero : findMaxContributionForTarget 100000 1000000 0 0 = 0 := by
    unfold findMaxContributionForTarget bestPercentFor
    rw [solverLoop_frozen 100000 1000000 0 0 hall 30 0 _ 0 le_rfl
      (le_min (by norm_num) (by unfold EMPLOYEE_401K_LIMIT; norm_num))]
    norm_num
  rw [hzero]
  exact heval

/-- Claim C4 (amended): for every salary > 0, match in `[0, 100]` and
target > 0, the solver's pre-rounding best percent either is 0 or, fed back
into the scenario at the fixed 7%/30-year assumption, yields take-home at
least `target - 1`; the returned value is that best percent rounded to one
decimal (so within 0.05 of it); and whenever even a 0% contribution cannot
reach the target the function returns 0. -/
theorem claim_C4_solver_contract (grossSalary targetAnnualTakeHome employerMatch : ℚ)
    (hs : 0 < grossSalary) (hm0 : 0 ≤ employerMatch) (hm1 : employerMatch ≤ 100)
    (ht : 0 < targetAnnualTakeHome) :
    (bestPercentFor grossSalary targetAnnualTakeHome employerMatch 0 = 0 ∨
      (calculate401KScenario grossSalary
        (bestPercentFor grossSalary targetAnnualTakeHome employerMatch 0) employerMatch 7 30
        (some targetAnnualTakeHome) 0 0).takeHomePay ≥ targetAnnualTakeHome - 1) ∧
    |findMaxContributionForTarget grossSalary targetAnnualTakeHome employerMatch 0 -
      bestPercentFor grossSalary targetAnnualTakeHome employerMatch 0| ≤ 1 / 20 ∧
    ((calculate401KScenario grossSalary 0 employerMatch 7 30 (some targetAnnualTakeHome) 0
        0).takeHomePay < targetAnnualTakeHome - 1 →
      findMaxContributionForTarget grossSalary targetAnnualTakeHome employerMatch 0 = 0) := by
  refine ⟨?_, ?_, ?_⟩
  · unfold bestPercentFor
    exact solverLoop_best_invariant grossSalary targetAnnualTakeHome employerMatch 0 30 _ _ _
      (Or.inl rfl)
  · unfold findMaxContributionForTarget
    set b := bestPercentFor grossSalary targetAnnualTakeHome employerMatch 0 with hb
    have h := abs_sub_round (b * 10)
    have habs : (0 : ℚ) ≤ |b * 10 - (round (b * 10) : ℤ)| := abs_nonneg _
    rw [show ((round (b * 10) : ℤ) : ℚ) / 10 - b =
      -((b * 10 - ((round (b * 10) : ℤ) : ℚ)) / 10) by ring, abs_neg, abs_div]
    rw [show |(10 : ℚ)| = 10 by norm_num]
    rw [div_le_iff₀ (by norm_num : (0 : ℚ) < 10)]
    linarith
  · intro hfail
    have hall : ∀ p : ℚ, 0 ≤ p →
        ¬((calculate401KScenario grossSalary p employerMatch 7 30 (some targetAnnualTakeHome)
          0 0).takeHomePay ≥ targetAnnualTakeHome - 1) := by
      intro p hp hc
      have hmono := takeHomePay_antitone grossSalary employerMatch 7 30
        (some targetAnnualTakeHome) 0 0 0 p hs.le hp
      linarith
    unfold findMaxContributionForTarget bestPercentFor
    rw [solverLoop_frozen grossSalary targetAnnualTakeHome employerMatch 0 hall 30 0 _ 0 le_rfl
      (le_min (by norm_num) ?_)]
    · norm_num
    · unfold EMPLOYEE_401K_LIMIT
      positivity

/-- Witness for C4 at salary 100000, target 50000, no match. -/
theorem claim_C4_witness :
    |findMaxContributionForTarget 100000 50000 0 0 - bestPercentFor 100000 50000 0 0| ≤ 1 / 20 :=
  (claim_C4_solver_contract 100000 50000 0 (by norm_num) (by norm_num) (by norm_num)
    (by norm_num)).2.1
